import Mathlib

/-!
Shallow embedding of the vocode-fork streaming pipeline (saisaneeth/speechllms)
for specification checking.  Pure Python functions become Lean functions;
stateful objects become explicit state records; fallible code returns
`Except`; machine integers are `Nat`/`Int`.  Definitions are translated from
the repository sources under src/; where a claim depends on repository code
whose file is not part of src/ (only its tests or callers are), the definition
is modelled from the spec and its doc comment says so.
-/

/-- Python `a or b` on optional strings: `None` and the empty string are falsy. -/
def pyOr (a b : Option String) : Option String :=
  match a with
  | some s => if s = "" then b else some s
  | none => b

/-- Python truthiness of an optional string value. -/
def isTruthyStr : Option String → Bool
  | none => false
  | some s => s ≠ ""

/-! ## Audio encodings

Modelled from the spec: the repository file `models/audio_encoding.py` is not
under src/.  The Python `AudioEncoding` is a string-valued enum distinguishing
linear PCM from companded audio; `create_silent_chunk` (src,
base_transcriber.py) compares the config's `audio_encoding` field for equality
with the two members and has no further branch, so we keep the underlying
string representation so that the if/elif fall-through of the source stays
visible. -/

def AudioEncoding.LINEAR16 : String := "linear16"

def AudioEncoding.MULAW : String := "mulaw"

/-! ## audioop.lin2ulaw

The source (base_transcriber.py, `create_silent_chunk`) calls CPython's
`audioop.lin2ulaw(fragment, 2)` to compand 16-bit linear samples to 8-bit
mu-law, one output byte per two input bytes.  We translate the CPython
`st_14linear2ulaw` routine (bias 0x84 >> 2 = 33, clip 8159, segment table
below) for the 2-byte sample width, the only width the repository uses. -/

namespace audioop

/-- Read a signed little-endian 16-bit sample from two bytes. -/
def int16_of_bytes (b0 b1 : Nat) : Int :=
  let u := (b0 % 256) + 256 * (b1 % 256)
  if u < 32768 then (u : Int) else (u : Int) - 65536

/-- Segment end table of the CPython mu-law encoder (seg_uend). -/
def seg_uend : List Int := [63, 127, 255, 511, 1023, 2047, 4095, 8191]

/-- Index of the first segment end that is at least the biased value
(CPython `search`); returns the table length when none is. -/
def ulaw_search (val : Int) : Nat :=
  (seg_uend.findIdx? (fun t => decide (val ≤ t))).getD seg_uend.length

/-- CPython `st_14linear2ulaw`: compand one 14-bit linear sample to mu-law. -/
def st_14linear2ulaw (pcm_val : Int) : Nat :=
  let mask : Nat := if pcm_val < 0 then 0x7F else 0xFF
  let a0 : Int := if pcm_val < 0 then -pcm_val else pcm_val
  let a1 : Int := if a0 > 8159 then 8159 else a0
  let a2 : Int := a1 + 33
  let seg : Nat := ulaw_search a2
  if seg ≥ 8 then Nat.xor 0x7F mask
  else Nat.xor ((seg <<< 4) ||| ((a2.toNat >>> (seg + 1)) &&& 0xF)) mask

/-- Compand a 16-bit-linear byte string (pairs of bytes, little endian) to
mu-law; CPython raises on a fragment that is not a whole number of frames,
modelled as `none`.  The sample is arithmetically shifted right by two bits
before companding (GETSAMPLE32 followed by `>> 18`). -/
def lin2ulaw_pairs : List Nat → Option (List Nat)
  | [] => some []
  | [_] => none
  | b0 :: b1 :: rest =>
    match lin2ulaw_pairs rest with
    | none => none
    | some tail => some (st_14linear2ulaw (Int.fdiv (int16_of_bytes b0 b1) 4) :: tail)

/-- CPython `audioop.lin2ulaw(fragment, width)`; the repository only ever
calls it with width 2, the one width modelled here. -/
def lin2ulaw (fragment : List Nat) (width : Nat) : Option (List Nat) :=
  if width = 2 then lin2ulaw_pairs fragment else none

end audioop

/-! ## Transcriber (src/vocode/streaming/transcriber/base_transcriber.py) -/

structure TranscriberConfig where
  audio_encoding : String
  publish_audio : Bool
deriving DecidableEq

/-- State of `AbstractTranscriber`: its config and the muting flag set in
`__init__` (`self.is_muted = False`). -/
structure TranscriberState where
  transcriber_config : TranscriberConfig
  is_muted : Bool
deriving DecidableEq

namespace AbstractTranscriber

/-- Source `AbstractTranscriber.mute`: sets `self.is_muted = True`. -/
def mute (t : TranscriberState) : TranscriberState :=
  { t with is_muted := true }

/-- Source `AbstractTranscriber.unmute`: sets `self.is_muted = False`. -/
def unmute (t : TranscriberState) : TranscriberState :=
  { t with is_muted := false }

/-- Source `AbstractTranscriber.create_silent_chunk`: builds `chunk_size` zero
bytes; returns them for LINEAR16, their mu-law companding for MULAW, and falls
through (Python implicit `None`) for any other encoding value.  An audioop
error (odd byte count) propagates as an exception, modelled by `Except.error`. -/
def create_silent_chunk (cfg : TranscriberConfig) (chunk_size : Nat)
    (sample_width : Nat) : Except String (Option (List Nat)) :=
  let linear_audio : List Nat := List.replicate chunk_size 0
  if cfg.audio_encoding = AudioEncoding.LINEAR16 then
    Except.ok (some linear_audio)
  else if cfg.audio_encoding = AudioEncoding.MULAW then
    match audioop.lin2ulaw linear_audio sample_width with
    | some converted => Except.ok (some converted)
    | none => Except.error "not a whole number of frames"
  else
    Except.ok none

end AbstractTranscriber

deriving instance DecidableEq for Except

/-- Outcome of one `send_audio` call: whether the publish task was spawned and
the single item enqueued into the transcriber input queue (`none` models the
Python `None` value enqueued when `create_silent_chunk` falls through). -/
structure SendAudioOutcome where
  published : Bool
  enqueued : Except String (Option (List Nat))
deriving DecidableEq

namespace BaseAsyncTranscriber

/-- Source `BaseAsyncTranscriber.send_audio`: optionally publishes the chunk,
then enqueues the chunk itself when unmuted, otherwise enqueues
`create_silent_chunk(len(chunk))` (sample width defaulting to 2).  Exactly one
item is enqueued per call, so the frame position is preserved either way. -/
def send_audio (t : TranscriberState) (chunk : List Nat) : SendAudioOutcome :=
  { published := t.transcriber_config.publish_audio,
    enqueued :=
      if t.is_muted = false then Except.ok (some chunk)
      else AbstractTranscriber.create_silent_chunk t.transcriber_config chunk.length 2 }

end BaseAsyncTranscriber

/-! ## Workers and termination

The generic worker classes live in `utils/worker.py`, which is not under
src/; only their callers (base_transcriber.py, blocking_speaker_output.py)
are.  Their `terminate` is modelled from the spec: it signals shutdown, must
be idempotent, and must unblock any pending blocking receive. -/

/-- Modelled from the spec: shutdown flag of `AsyncWorker` / `ThreadAsyncWorker`
(`utils/worker.py`, not under src/).  `terminate()` signals shutdown and is
idempotent, so it is a boolean that only ever moves to `true`. -/
structure WorkerState where
  terminated : Bool
deriving DecidableEq

/-- Modelled from the spec: `AsyncWorker.terminate` and
`ThreadAsyncWorker.terminate` signal shutdown and are safe to call twice. -/
def Worker.terminate (w : WorkerState) : WorkerState :=
  { w with terminated := true }

/-- State of `BaseAsyncTranscriber` relevant to termination: the transcriber
fields plus its worker half (it subclasses both). -/
structure AsyncTranscriberState where
  transcriber : TranscriberState
  worker : WorkerState
deriving DecidableEq

/-- Source `BaseAsyncTranscriber.terminate`: delegates to
`AsyncWorker.terminate(self)`. -/
def BaseAsyncTranscriber.terminate (t : AsyncTranscriberState) : AsyncTranscriberState :=
  { t with worker := Worker.terminate t.worker }

/-! ## BlockingSpeakerOutput (src/vocode/streaming/output_device/blocking_speaker_output.py) -/

/-- State of `BlockingSpeakerOutput`: the `_ended` flag checked by its run
loop, its `ThreadAsyncWorker` half, and whether the sounddevice stream has
been closed. -/
structure SpeakerState where
  _ended : Bool
  worker : WorkerState
  stream_closed : Bool
deriving DecidableEq

/-- Source `BlockingSpeakerOutput.terminate`: sets `self._ended = True`, calls
`ThreadAsyncWorker.terminate(self)`, and closes the stream. -/
def BlockingSpeakerOutput.terminate (s : SpeakerState) : SpeakerState :=
  { s with _ended := true, worker := Worker.terminate s.worker, stream_closed := true }

/-- Result of one blocking `input_janus_queue.sync_q.get(timeout=1)` call in
the run loop: either a chunk arrived or the one-second timeout elapsed
(`queue.Empty`).  Because the source always passes `timeout=1`, every receive
returns within one timeout tick; a trace of these results is therefore a
discrete model of bounded real time. -/
inductive QueueGetResult where
  | chunk (data : List Nat)
  | emptyTimeout
deriving DecidableEq

/-- Source `BlockingSpeakerOutput._run_loop`: `while not self._ended`, get a
chunk with a one-second timeout, write it to the stream, and continue on
`queue.Empty`.  The function returns the chunks written to the stream for the
given trace of queue results, checking `_ended` before each receive exactly as
the `while` guard does. -/
def BlockingSpeakerOutput.run_loop (s : SpeakerState) :
    List QueueGetResult → List (List Nat)
  | [] => []
  | e :: rest =>
    if s._ended then []
    else
      match e with
      | QueueGetResult.chunk data => data :: BlockingSpeakerOutput.run_loop s rest
      | QueueGetResult.emptyTimeout => BlockingSpeakerOutput.run_loop s rest

/-! ## OpenAI chat messages and Transcript -/

/-- One OpenAI chat message dict, as built from the transcript. -/
structure OpenAIMessage where
  role : String
  content : String
deriving DecidableEq

/-- Rolling summary held by the transcript (`transcript.last_summary.text`). -/
structure SummaryInfo where
  text : String
deriving DecidableEq

/-- Transcript as the agent sees it: the chat messages its turns format to
(one per human/agent turn, roles user/assistant) and the optional rolling
summary. -/
structure Transcript where
  turn_messages : List OpenAIMessage
  last_summary : Option SummaryInfo
deriving DecidableEq

/-- Modelled from the spec: `format_openai_chat_messages_from_transcript`
(agent/utils.py, not under src/) produces a leading system message holding the
prompt preamble when one is configured, followed by one message per transcript
turn. -/
def format_openai_chat_messages_from_transcript (t : Transcript)
    (prompt_preamble : Option String) : List OpenAIMessage :=
  (match prompt_preamble with
   | some p => [{ role := "system", content := p }]
   | none => []) ++ t.turn_messages

/-! ## ChatGPTAgent (src/vocode/streaming/agent/chat_gpt_agent.py) -/

structure AzureParams where
  api_type : String
  api_version : String
  engine : String
deriving DecidableEq

structure ChatGPTAgentConfig where
  prompt_preamble : Option String
  model_name : String
  max_tokens : Nat
  temperature : Rat
  azure_params : Option AzureParams
  cut_off_response : Option String
  vector_db_config : Option String
  expected_first_prompt : Option String
  end_conversation_on_goodbye : Bool
deriving DecidableEq

/-- Process-wide `openai` module globals assigned by `ChatGPTAgent.__init__`. -/
structure OpenAIGlobalState where
  api_type : String
  api_base : Option String
  api_version : Option String
  api_key : Option String
deriving DecidableEq

/-- Fields of a constructed `ChatGPTAgent` used by the embedded methods.
`transcript` is `none` until `attach_transcript` is called. -/
structure ChatGPTAgentState where
  agent_config : ChatGPTAgentConfig
  transcript : Option Transcript
  last_messages_cnt : Nat
  goodbye_phrase : Option String
  is_first_response : Bool
  first_response : Option String
  functions : Option (List String)
deriving DecidableEq

namespace ChatGPTAgent

/-- Source `ChatGPTAgent.__init__`: assigns the openai globals (Azure
credentials from the environment when `azure_params` is set, otherwise the
passed key or `OPENAI_API_KEY`), then raises `ValueError` if the resulting key
is falsy, before any conversation state exists.  `backend_first_response`
stands for the result of the blocking `create_first_response` call made only
when `expected_first_prompt` is configured; `env` is the process environment. -/
def init (config : ChatGPTAgentConfig) (openai_api_key : Option String)
    (env : String → Option String) (goodbye_phrase : Option String)
    (last_messages_cnt : Nat) (backend_first_response : String) :
    Except String (OpenAIGlobalState × ChatGPTAgentState) :=
  let g : OpenAIGlobalState :=
    match config.azure_params with
    | some az =>
      { api_type := az.api_type,
        api_base := env "AZURE_OPENAI_API_BASE",
        api_version := some az.api_version,
        api_key := env "AZURE_OPENAI_API_KEY" }
    | none =>
      { api_type := "open_ai",
        api_base := some "https://api.openai.com/v1",
        api_version := none,
        api_key := pyOr openai_api_key (env "OPENAI_API_KEY") }
  if isTruthyStr g.api_key = false then
    Except.error "OPENAI_API_KEY must be set in environment or passed in"
  else
    Except.ok
      (g,
        { agent_config :=
            if goodbye_phrase.isSome then
              { config with end_conversation_on_goodbye := true }
            else config,
          transcript := none,
          last_messages_cnt := last_messages_cnt,
          goodbye_phrase := goodbye_phrase,
          is_first_response := true,
          first_response :=
            if config.expected_first_prompt.isSome then some backend_first_response
            else none,
          functions := none })

/-- Source `ChatGPTAgent.attach_transcript`. -/
def attach_transcript (agent : ChatGPTAgentState) (t : Transcript) : ChatGPTAgentState :=
  { agent with transcript := some t }

/-- Parameters dict built by `get_chat_parameters` (the `stream` flag is added
by `generate_response` afterwards). -/
structure ChatParameters where
  messages : List OpenAIMessage
  max_tokens : Nat
  temperature : Rat
  engine_or_model : String
  functions : Option (List String)
deriving DecidableEq

/-- Python slice `l[-cnt:]`: the last `cnt` elements, except that `-0` is `0`
so `cnt = 0` yields the whole list. -/
def python_slice_last (cnt : Nat) (l : List OpenAIMessage) : List OpenAIMessage :=
  if cnt = 0 then l else l.drop (l.length - cnt)

/-- Source `ChatGPTAgent.get_chat_parameters`: asserts a transcript is
attached; takes the passed messages unless they are falsy (None or empty), in
which case it formats the transcript; when the transcript holds a summary and
a preamble is configured and the first message is a system message, rewrites
that first message content to preamble + newline + summary text (in-place in
the source) and, when more than `last_messages_cnt` non-system messages exist,
keeps only the rewritten head plus the Python slice `messages[-cnt:]`; when
the first message is not a system message it only logs an error.  Then builds
the parameters dict. -/
def get_chat_parameters (agent : ChatGPTAgentState)
    (messages_arg : Option (List OpenAIMessage)) : Except String ChatParameters :=
  match agent.transcript with
  | none => Except.error "assertion failed: self.transcript is not None"
  | some transcript =>
    let messages0 : List OpenAIMessage :=
      match messages_arg with
      | some ms =>
        if ms.isEmpty then
          format_openai_chat_messages_from_transcript transcript
            agent.agent_config.prompt_preamble
        else ms
      | none =>
        format_openai_chat_messages_from_transcript transcript
          agent.agent_config.prompt_preamble
    let messages1 : List OpenAIMessage :=
      match transcript.last_summary with
      | none => messages0
      | some last_summary =>
        match agent.agent_config.prompt_preamble with
        | none => messages0
        | some preamble =>
          match messages0 with
          | [] => messages0
          | first_message :: rest =>
            if first_message.role = "system" then
              let first_message2 : OpenAIMessage :=
                { first_message with
                  content := preamble ++ "\n" ++ last_summary.text }
              let mutated := first_message2 :: rest
              if mutated.length - 1 > agent.last_messages_cnt then
                first_message2 :: python_slice_last agent.last_messages_cnt mutated
              else mutated
            else messages0
    Except.ok
      { messages := messages1,
        max_tokens := agent.agent_config.max_tokens,
        temperature := agent.agent_config.temperature,
        engine_or_model :=
          match agent.agent_config.azure_params with
          | some az => az.engine
          | none => agent.agent_config.model_name,
        functions :=
          match agent.functions with
          | some fs => if fs.isEmpty then none else some fs
          | none => none }

/-- Modelled from the spec: `get_cut_off_response` (base_agent.py, not under
src/) returns the configured cut-off text of the agent. -/
def get_cut_off_response (config : ChatGPTAgentConfig) : String :=
  config.cut_off_response.getD ""

/-- One streamed fragment of an agent response: a text chunk or a function
call collated from the stream. -/
inductive ResponseFragment where
  | text (s : String)
  | functionCall (name arguments : String)
deriving DecidableEq

/-- What one `generate_response` call produced: the fragments yielded in
order, and whether `openai.ChatCompletion.acreate` was invoked. -/
structure GenerateOutcome where
  fragments : List ResponseFragment
  backend_called : Bool
deriving DecidableEq

/-- Source `ChatGPTAgent.generate_response`: when called with
`is_interrupt=True` on a config with a truthy `cut_off_response`, yields the
cut-off response and returns without touching the backend; otherwise asserts
a transcript, builds chat parameters (the vector-db branch only changes the
prompt context and still invokes the backend), sets `stream=True`, awaits
`openai.ChatCompletion.acreate`, and forwards the collated stream.
`backend_stream` stands for the fragments the external stream collates to. -/
def generate_response (agent : ChatGPTAgentState) (human_input : String)
    (conversation_id : String) (is_interrupt : Bool)
    (backend_stream : List ResponseFragment) : Except String GenerateOutcome :=
  if is_interrupt ∧ agent.agent_config.cut_off_response.isSome then
    Except.ok
      { fragments := [ResponseFragment.text (get_cut_off_response agent.agent_config)],
        backend_called := false }
  else
    match agent.transcript with
    | none => Except.error "assertion failed: self.transcript is not None"
    | some _ => Except.ok { fragments := backend_stream, backend_called := true }

/-- Source `ChatGPTAgent.respond`: same cut-off short-circuit, then either the
cached first response or a blocking backend completion.  `backend_text` stands
for the backend completion text. -/
def respond (agent : ChatGPTAgentState) (human_input : String)
    (conversation_id : String) (is_interrupt : Bool) (backend_text : String) :
    Except String (String × Bool) :=
  match agent.transcript with
  | none => Except.error "assertion failed: self.transcript is not None"
  | some _ =>
    if is_interrupt ∧ agent.agent_config.cut_off_response.isSome then
      Except.ok (get_cut_off_response agent.agent_config, false)
    else if agent.is_first_response ∧ agent.first_response.isSome then
      Except.ok (agent.first_response.getD "", false)
    else
      Except.ok (backend_text, false)

end ChatGPTAgent

/-! ## OpenAIContextTracker (src/vocode/utils/context_tracker/open_ai_context_tracker.py) -/

structure OpenAIContextTrackerConfig where
  api_key : Option String
  model : String
  PROMPT : Option String
deriving DecidableEq

/-- Source module-level `PROMPT` default of open_ai_context_tracker.py. -/
def default_context_prompt : String :=
  "\nThere is an ongoing chat, between a call center, who is trying do telemarketing. You can see \ncustomer side of the chat, and you want to determine if the last message is related to context of the call.\nwe get both parts of chat from caller and the one who answers, and we want to determine if the last message is a \nresponse to caller, or just random people talking around the client.\nAnswer TRUE if it\x27s related to context, or FALSE if it\x27s not, just one of this words.\nthe context of call is as follow:\ncall context = \nact as a phone announcer, just generate on side of things. ask for their name, and tell dear NAME,\ncontacti base features are now available on amazon web services and you can seee out features on www.contacti.AI\n"

/-- Constructed `OpenAIContextTracker`: its config, the resolved key assigned
to the openai global, and the seeded message list. -/
structure OpenAIContextTrackerState where
  config : OpenAIContextTrackerConfig
  openai_api_key : String
  messages : List OpenAIMessage
deriving DecidableEq

/-- Source `OpenAIContextTracker.__init__`: resolves
`config.api_key or getenv("OPENAI_API_KEY")`, raises `ValueError` when the
result is falsy, then seeds `self.messages` with the system prompt
(`config.PROMPT or PROMPT`). -/
def OpenAIContextTracker.init (config : OpenAIContextTrackerConfig)
    (env : String → Option String) : Except String OpenAIContextTrackerState :=
  let key := pyOr config.api_key (env "OPENAI_API_KEY")
  if isTruthyStr key = false then
    Except.error "OPENAI_API_KEY must be set in environment or passed in"
  else
    Except.ok
      { config := config,
        openai_api_key := key.getD "",
        messages :=
          [{ role := "system",
             content := (pyOr config.PROMPT (some default_context_prompt)).getD "" }] }

/-! ## RESTfulUserImplementedAgent (src/vocode/streaming/agent/restful_user_implemented_agent.py) -/

/-- Message returned by the agent (models/message.py `BaseMessage`). -/
structure BaseMessage where
  text : String
  metadata : Option String
deriving DecidableEq

/-- Parsed `RESTfulAgentOutput`: its tagged union of TEXT and END outputs. -/
inductive RESTfulAgentOutput where
  | text (response : String) (metadata : Option String)
  | finish (metadata : Option String)
deriving DecidableEq

/-- What the user-implemented HTTP endpoint interaction produced, as seen by
`respond`: a transport-level exception, or an HTTP status together with the
parsed body (`none` when the body fails to parse as `RESTfulAgentOutput`). -/
inductive RESTfulBackendResult where
  | exn (message : String)
  | http (status : Nat) (body : Option RESTfulAgentOutput)
deriving DecidableEq

/-- Source `RESTfulUserImplementedAgent.respond`: posts the input, then
`raise_for_status` (raises on status >= 400), parses the body, and maps TEXT
to a message with `should_stop = False` and END to an empty message with
`should_stop = True`.  Every exception along the way is caught by the
enclosing `except Exception`, which logs and returns `(None, True)` — the
call itself never raises, so the result type needs no error case. -/
def RESTfulUserImplementedAgent.respond (backend : RESTfulBackendResult) :
    Option BaseMessage × Bool :=
  match backend with
  | RESTfulBackendResult.exn _ => (none, true)
  | RESTfulBackendResult.http status body =>
    if status ≥ 400 then (none, true)
    else
      match body with
      | none => (none, true)
      | some (RESTfulAgentOutput.text response metadata) =>
        (some { text := response, metadata := metadata }, false)
      | some (RESTfulAgentOutput.finish metadata) =>
        (some { text := "", metadata := metadata }, true)

/-! ## DTMF action and tone generator

Modelled from the spec: `action/dtmf.py` and `utils/dtmf_utils.py` are not
under src/ — only their test (src/tests/streaming/action/test_dtmf.py) is.
The spec fixes the schema (`buttons` matching `^[0-9]+$`), the failure message
(also asserted by `test_twilio_dtmf_failure`), that no external call happens on
invalid input, that tone synthesis is a pure function of
`(digit, sampling_rate, encoding)`, and that each digit's tone is written to
the output device in digit order. -/

/-- Modelled from the spec: dual-tone row/column frequency pair of each DTMF
digit 0-9 (spec glossary and section 4.4). -/
def dtmf_frequencies (c : Char) : Option (Nat × Nat) :=
  if c = '1' then some (697, 1209)
  else if c = '2' then some (697, 1336)
  else if c = '3' then some (697, 1477)
  else if c = '4' then some (770, 1209)
  else if c = '5' then some (770, 1336)
  else if c = '6' then some (770, 1477)
  else if c = '7' then some (852, 1209)
  else if c = '8' then some (852, 1336)
  else if c = '9' then some (852, 1477)
  else if c = '0' then some (941, 1336)
  else none

/-- Modelled from the spec: the synthesized audio frame for one dual tone.
The spec puts the waveform math out of scope ("tone/waveform synthesis math
beyond its input/output contract"), so the frame is modelled as a
deterministic byte encoding of the tone parameters. -/
def tone_frame (low high sampling_rate : Nat) (audio_encoding : String) : List Nat :=
  [low % 256, low / 256, high % 256, high / 256,
   sampling_rate % 256, sampling_rate / 256 % 256, audio_encoding.length % 256]

/-- Modelled from the spec: `DTMFToneGenerator.generate` (utils/dtmf_utils.py,
not under src/) — a pure function from `(digit, sampling_rate, encoding)` to
the tone's audio frame, `none` for a keypad entry outside its table. -/
def DTMFToneGenerator.generate (digit : Char) (sampling_rate : Nat)
    (audio_encoding : String) : Option (List Nat) :=
  match dtmf_frequencies digit with
  | none => none
  | some freqs => some (tone_frame freqs.1 freqs.2 sampling_rate audio_encoding)

/-- Modelled from the spec: the DTMF parameter schema, `buttons` matching
`^[0-9]+$` (nonempty, digits 0-9 only). -/
def is_valid_buttons (buttons : String) : Bool :=
  buttons.length > 0 && buttons.toList.all (fun c => c.isDigit)

/-- Response part of an `ActionOutput`. -/
structure ActionResponse where
  success : Bool
  message : Option String
deriving DecidableEq

/-- Result of `TwilioDTMF.run`: the action output response and the tone
frames written to the Twilio output device, in digit order.  Writing frames is
the only external effect of the Twilio DTMF action (it synthesizes locally). -/
structure TwilioDTMFRunResult where
  response : ActionResponse
  frames : List (List Nat)
deriving DecidableEq

/-- Modelled from the spec and test_dtmf.py: `TwilioDTMF.run` validates the
digits; on any character outside 0-9 it fails fast with
"Invalid DTMF buttons, can only accept 0-9" and contacts no external system;
otherwise it synthesizes one tone per digit at 8000 Hz mu-law (the values the
test checks) and writes them to the output device in digit order, reporting
success.  It returns in both cases — validation never throws past the action. -/
def TwilioDTMF.run (buttons : String) : TwilioDTMFRunResult :=
  if is_valid_buttons buttons then
    { response := { success := true, message := none },
      frames :=
        buttons.toList.filterMap
          (fun c => DTMFToneGenerator.generate c 8000 AudioEncoding.MULAW) }
  else
    { response :=
        { success := false,
          message := some "Invalid DTMF buttons, can only accept 0-9" },
      frames := [] }

/-- Result of `VonageDTMF.run`: the action output response and the signaling
requests issued to the Vonage control-plane API (one DTMF request per run on
success). -/
structure VonageDTMFRunResult where
  response : ActionResponse
  signaling_requests : List String
deriving DecidableEq

/-- Modelled from the spec and test_dtmf.py: `VonageDTMF.run` validates the
digits the same way and on success issues one signaling request to press the
digits server-side on the call identified by the Vonage UUID. -/
def VonageDTMF.run (buttons : String) (vonage_uuid : String) : VonageDTMFRunResult :=
  if is_valid_buttons buttons then
    { response := { success := true, message := none },
      signaling_requests := [vonage_uuid ++ "/dtmf:" ++ buttons] }
  else
    { response :=
        { success := false,
          message := some "Invalid DTMF buttons, can only accept 0-9" },
      signaling_requests := [] }

/-- Characterization (from the amended C4 wording) of the silence item a muted
`send_audio` enqueues for each encoding value, as a function of the incoming
chunk byte length. -/
def expected_silence (enc : String) (n : Nat) : Option (List Nat) :=
  if enc = AudioEncoding.LINEAR16 then some (List.replicate n 0)
  else if enc = AudioEncoding.MULAW then some (List.replicate (n / 2) 255)
  else none

/-! ## Helper lemmas -/

theorem st_14linear2ulaw_zero : audioop.st_14linear2ulaw (Int.fdiv (audioop.int16_of_bytes 0 0) 4) = 255 := by
  decide

theorem lin2ulaw_pairs_replicate_zero (k : Nat) :
    audioop.lin2ulaw_pairs (List.replicate (2 * k) 0) = some (List.replicate k 255) := by
  induction k with
  | zero => rfl
  | succ n ih =>
    have h2 : 2 * (n + 1) = 2 * n + 1 + 1 := by omega
    rw [h2, List.replicate_succ, List.replicate_succ]
    simp [audioop.lin2ulaw_pairs, ih, st_14linear2ulaw_zero, List.replicate_succ]

/-! ## Claim theorems -/

/-- C8: `mute()` and `unmute()` are idempotent — applying either twice leaves
the same transcriber state as applying it once; after `mute()` the transcriber
is muted and after `unmute()` it is not; and the change takes effect for the
very next `send_audio` call, which enqueues the silent chunk when muted and
the chunk itself when unmuted. -/
theorem mute_unmute_idempotent_and_immediate (t : TranscriberState) (chunk : List Nat) :
    AbstractTranscriber.mute (AbstractTranscriber.mute t) = AbstractTranscriber.mute t ∧
    AbstractTranscriber.unmute (AbstractTranscriber.unmute t) = AbstractTranscriber.unmute t ∧
    (AbstractTranscriber.mute t).is_muted = true ∧
    (AbstractTranscriber.unmute t).is_muted = false ∧
    (BaseAsyncTranscriber.send_audio (AbstractTranscriber.mute t) chunk).enqueued =
      AbstractTranscriber.create_silent_chunk t.transcriber_config chunk.length 2 ∧
    (BaseAsyncTranscriber.send_audio (AbstractTranscriber.unmute t) chunk).enqueued =
      Except.ok (some chunk) := by
  refine ⟨rfl, rfl, rfl, rfl, ?_, ?_⟩ <;>
    simp [AbstractTranscriber.mute, AbstractTranscriber.unmute,
      BaseAsyncTranscriber.send_audio]

/-- C9: calling `terminate()` stops the processing loop — after termination
the run loop performs no further iteration for any trace of queue receives
(each receive itself returns within the one-second timeout the source passes
to `sync_q.get`, which is how the trace is produced) — and `terminate()` is
idempotent both on `BlockingSpeakerOutput` and on `BaseAsyncTranscriber`. -/
theorem terminate_unblocks_loop_and_idempotent (s : SpeakerState)
    (tr : AsyncTranscriberState) (events : List QueueGetResult) :
    BlockingSpeakerOutput.terminate (BlockingSpeakerOutput.terminate s) =
      BlockingSpeakerOutput.terminate s ∧
    BlockingSpeakerOutput.run_loop (BlockingSpeakerOutput.terminate s) events = [] ∧
    BaseAsyncTranscriber.terminate (BaseAsyncTranscriber.terminate tr) =
      BaseAsyncTranscriber.terminate tr := by
  refine ⟨rfl, ?_, rfl⟩
  cases events with
  | nil => rfl
  | cons e rest => simp [BlockingSpeakerOutput.run_loop, BlockingSpeakerOutput.terminate]

/-- C10: for an audio encoding value other than LINEAR16 and MULAW,
`create_silent_chunk` falls through every branch and yields Python `None`, so
a muted `send_audio` enqueues `None` instead of a byte chunk. -/
theorem unknown_encoding_enqueues_none (cfg : TranscriberConfig) (chunk : List Nat)
    (h1 : cfg.audio_encoding ≠ AudioEncoding.LINEAR16)
    (h2 : cfg.audio_encoding ≠ AudioEncoding.MULAW) :
    AbstractTranscriber.create_silent_chunk cfg chunk.length 2 = Except.ok none ∧
    (BaseAsyncTranscriber.send_audio
      { transcriber_config := cfg, is_muted := true } chunk).enqueued = Except.ok none := by
  constructor <;>
    simp [AbstractTranscriber.create_silent_chunk, BaseAsyncTranscriber.send_audio, h1, h2]

/-- C10 witness: a muted transcriber configured with the encoding value "opus"
enqueues `None` for a three-byte chunk. -/
theorem unknown_encoding_enqueues_none_witness :
    (BaseAsyncTranscriber.send_audio
      { transcriber_config := { audio_encoding := "opus", publish_audio := false },
        is_muted := true } [1, 2, 3]).enqueued = Except.ok none :=
  (unknown_encoding_enqueues_none
    { audio_encoding := "opus", publish_audio := false } [1, 2, 3]
    (by decide) (by decide)).2

/-- C1: a `generate_response` call with `is_interrupt=true` on an agent whose
config has a cut-off response configured yields exactly one fragment — the
configured cut-off text — and terminates, and the external backend
(`openai.ChatCompletion.acreate`) is never invoked during that call. -/
theorem interrupt_cut_off_single_fragment_no_backend
    (agent : ChatGPTAgentState) (human_input conversation_id : String)
    (backend_stream : List ChatGPTAgent.ResponseFragment) (c : String)
    (h : agent.agent_config.cut_off_response = some c) :
    ChatGPTAgent.generate_response agent human_input conversation_id true backend_stream =
      Except.ok
        { fragments := [ChatGPTAgent.ResponseFragment.text c],
          backend_called := false } := by
  simp [ChatGPTAgent.generate_response, ChatGPTAgent.get_cut_off_response, h]

/-- C1 witness: a concrete cut-off-configured agent interrupted mid-turn
yields exactly the cut-off text and does not call the backend. -/
theorem interrupt_cut_off_single_fragment_no_backend_witness :
    ChatGPTAgent.generate_response
      { agent_config :=
          { prompt_preamble := some "You are helpful.",
            model_name := "gpt-3.5-turbo",
            max_tokens := 100,
            temperature := 0,
            azure_params := none,
            cut_off_response := some "Sorry, go ahead.",
            vector_db_config := none,
            expected_first_prompt := none,
            end_conversation_on_goodbye := false },
        transcript := some { turn_messages := [], last_summary := none },
        last_messages_cnt := 4,
        goodbye_phrase := some "STOP CALL",
        is_first_response := true,
        first_response := none,
        functions := none }
      "wait" "conv-1" true
      [ChatGPTAgent.ResponseFragment.text "never streamed"] =
      Except.ok
        { fragments := [ChatGPTAgent.ResponseFragment.text "Sorry, go ahead."],
          backend_called := false } :=
  interrupt_cut_off_single_fragment_no_backend _ "wait" "conv-1"
    [ChatGPTAgent.ResponseFragment.text "never streamed"] "Sorry, go ahead." rfl

/-- C6: constructing `ChatGPTAgent` or `OpenAIContextTracker` without the
required credential (no key passed, none in the environment) raises a
`ValueError` at construction time, before any conversation starts; with a
credential present, construction does not raise for this reason. -/
theorem missing_credentials_fatal_at_construction
    (config : ChatGPTAgentConfig) (tconfig : OpenAIContextTrackerConfig)
    (env : String → Option String) (k : String)
    (goodbye_phrase : Option String) (last_messages_cnt : Nat) (first : String)
    (h_azure : config.azure_params = none)
    (h_env : env "OPENAI_API_KEY" = none)
    (h_tkey : tconfig.api_key = none)
    (h_k : k ≠ "") :
    ChatGPTAgent.init config none env goodbye_phrase last_messages_cnt first =
      Except.error "OPENAI_API_KEY must be set in environment or passed in" ∧
    (ChatGPTAgent.init config (some k) env goodbye_phrase last_messages_cnt first).isOk = true ∧
    OpenAIContextTracker.init tconfig env =
      Except.error "OPENAI_API_KEY must be set in environment or passed in" ∧
    (OpenAIContextTracker.init { tconfig with api_key := some k } env).isOk = true := by
  refine ⟨?_, ?_, ?_, ?_⟩ <;>
    simp [ChatGPTAgent.init, OpenAIContextTracker.init, pyOr, isTruthyStr,
      h_azure, h_env, h_tkey, h_k, Except.isOk, Except.toBool]

/-- C6 witness: with an empty environment, construction of both classes fails
with the `ValueError` message when no key is given and succeeds when the key
"sk-test" is passed. -/
theorem missing_credentials_fatal_at_construction_witness :
    ChatGPTAgent.init
      { prompt_preamble := none, model_name := "gpt-3.5-turbo", max_tokens := 64,
        temperature := 0, azure_params := none, cut_off_response := none,
        vector_db_config := none, expected_first_prompt := none,
        end_conversation_on_goodbye := false }
      none (fun _ => none) none 4 "" =
      Except.error "OPENAI_API_KEY must be set in environment or passed in" ∧
    (ChatGPTAgent.init
      { prompt_preamble := none, model_name := "gpt-3.5-turbo", max_tokens := 64,
        temperature := 0, azure_params := none, cut_off_response := none,
        vector_db_config := none, expected_first_prompt := none,
        end_conversation_on_goodbye := false }
      (some "sk-test") (fun _ => none) none 4 "").isOk = true ∧
    OpenAIContextTracker.init
      { api_key := none, model := "gpt-3.5-turbo", PROMPT := none } (fun _ => none) =
      Except.error "OPENAI_API_KEY must be set in environment or passed in" ∧
    (OpenAIContextTracker.init
      { api_key := some "sk-test", model := "gpt-3.5-turbo", PROMPT := none }
      (fun _ => none)).isOk = true :=
  missing_credentials_fatal_at_construction
    { prompt_preamble := none, model_name := "gpt-3.5-turbo", max_tokens := 64,
      temperature := 0, azure_params := none, cut_off_response := none,
      vector_db_config := none, expected_first_prompt := none,
      end_conversation_on_goodbye := false }
    { api_key := none, model := "gpt-3.5-turbo", PROMPT := none }
    (fun _ => none) "sk-test" none 4 "" rfl rfl rfl (by decide)

/-- C2: for a buttons string containing at least one character outside 0-9,
the DTMF action returns a failed ActionOutput with message exactly
"Invalid DTMF buttons, can only accept 0-9", performs no external call (no
signaling request on Vonage, no frame written to the output device on
Twilio), and — being a total function — raises nothing past the action
boundary. -/
theorem invalid_dtmf_buttons_fail_fast (buttons vonage_uuid : String)
    (h : buttons.toList.any (fun c => !c.isDigit) = true) :
    TwilioDTMF.run buttons =
      { response :=
          { success := false,
            message := some "Invalid DTMF buttons, can only accept 0-9" },
        frames := [] } ∧
    VonageDTMF.run buttons vonage_uuid =
      { response :=
          { success := false,
            message := some "Invalid DTMF buttons, can only accept 0-9" },
        signaling_requests := [] } := by
  have hall : buttons.toList.all (fun ch => ch.isDigit) = false := by
    rcases List.any_eq_true.mp h with ⟨c, hc, hcd⟩
    rw [Bool.eq_false_iff]
    intro hall
    have hdig := List.all_eq_true.mp hall c hc
    simp [hdig] at hcd
  have hv : is_valid_buttons buttons = false := by
    unfold is_valid_buttons
    rw [hall, Bool.and_false]
  constructor <;> simp [TwilioDTMF.run, VonageDTMF.run, hv]

/-- C2 witness: the test input "****" fails with the exact message and
produces no frame and no signaling request. -/
theorem invalid_dtmf_buttons_fail_fast_witness :
    TwilioDTMF.run "****" =
      { response :=
          { success := false,
            message := some "Invalid DTMF buttons, can only accept 0-9" },
        frames := [] } ∧
    VonageDTMF.run "****" "vonage-uuid-1" =
      { response :=
          { success := false,
            message := some "Invalid DTMF buttons, can only accept 0-9" },
        signaling_requests := [] } :=
  invalid_dtmf_buttons_fail_fast "****" "vonage-uuid-1" (by decide)

/-- C3: DTMF tone synthesis is a deterministic pure function — two calls to
`DTMFToneGenerator.generate` with identical digit, sampling rate and encoding
arguments produce byte-identical output (it takes no conversation state at
all) — and for every buttons string matching `[0-9]+` the DTMF action
reports success. -/
theorem dtmf_tone_deterministic_and_valid_buttons_succeed
    (d d2 : Char) (r r2 : Nat) (e e2 : String) (buttons : String)
    (hd : d = d2) (hr : r = r2) (he : e = e2)
    (hb : is_valid_buttons buttons = true) :
    DTMFToneGenerator.generate d r e = DTMFToneGenerator.generate d2 r2 e2 ∧
    (TwilioDTMF.run buttons).response.success = true ∧
    (VonageDTMF.run buttons "any-uuid").response.success = true := by
  subst hd
  subst hr
  subst he
  refine ⟨rfl, ?_, ?_⟩ <;> simp [TwilioDTMF.run, VonageDTMF.run, hb]

/-- C3 witness: two identical calls for digit 5 at 8000 Hz mu-law coincide,
and the test's buttons "1234" make both actions report success. -/
theorem dtmf_tone_deterministic_and_valid_buttons_succeed_witness :
    DTMFToneGenerator.generate '5' 8000 "mulaw" = DTMFToneGenerator.generate '5' 8000 "mulaw" ∧
    (TwilioDTMF.run "1234").response.success = true ∧
    (VonageDTMF.run "1234" "any-uuid").response.success = true :=
  dtmf_tone_deterministic_and_valid_buttons_succeed '5' '5' 8000 8000 "mulaw" "mulaw"
    "1234" rfl rfl rfl (by decide)

/-- C7 counterexample: on a transport exception during generation, `respond`
returns `(None, True)`.  The second component is the `should_stop` flag of the
agent contract, so the call requests conversation termination — refuting the
claim that the processing loop continues rather than terminating the
conversation (the first half of the claim, returning instead of raising, does
hold). -/
theorem restful_respond_failure_counterexample :
    RESTfulUserImplementedAgent.respond (RESTfulBackendResult.exn "connection reset") =
      (none, true) ∧
    ((RESTfulUserImplementedAgent.respond (RESTfulBackendResult.exn "connection reset")).2 = false →
      False) := by
  decide

/-- C7 amended: every provider/API failure during `respond` — a raised
transport exception, a non-2xx status rejected by `raise_for_status`, or an
unparseable body — is caught inside the call, which returns the value
`(None, True)` rather than raising; the `True` is the `should_stop` flag, so
the failure ends the conversation rather than letting the loop continue. -/
theorem restful_respond_failure_returns_stop (msg : String) (status : Nat)
    (body : Option RESTfulAgentOutput) (h : 400 ≤ status) :
    RESTfulUserImplementedAgent.respond (RESTfulBackendResult.exn msg) = (none, true) ∧
    RESTfulUserImplementedAgent.respond (RESTfulBackendResult.http status body) =
      (none, true) ∧
    RESTfulUserImplementedAgent.respond (RESTfulBackendResult.http 200 none) =
      (none, true) := by
  refine ⟨rfl, ?_, rfl⟩
  simp [RESTfulUserImplementedAgent.respond, h]

/-- C7 witness: a concrete connection error and a concrete HTTP 500 both make
`respond` return `(None, True)` without raising. -/
theorem restful_respond_failure_returns_stop_witness :
    RESTfulUserImplementedAgent.respond (RESTfulBackendResult.exn "timeout") = (none, true) ∧
    RESTfulUserImplementedAgent.respond
      (RESTfulBackendResult.http 500 (some (RESTfulAgentOutput.text "oops" none))) =
      (none, true) ∧
    RESTfulUserImplementedAgent.respond (RESTfulBackendResult.http 200 none) =
      (none, true) :=
  restful_respond_failure_returns_stop "timeout" 500
    (some (RESTfulAgentOutput.text "oops" none)) (by decide)

/-- C4 counterexample: a muted MULAW transcriber receiving a four-byte chunk
enqueues a silence frame of two bytes (the mu-law companding of four zero
linear bytes), not four — refuting the claim that the silence frame's byte
length equals the incoming chunk's for every configured audio encoding. -/
theorem muted_silence_frame_counterexample :
    (BaseAsyncTranscriber.send_audio
      { transcriber_config := { audio_encoding := "mulaw", publish_audio := false },
        is_muted := true } [7, 7, 7, 7]).enqueued =
      Except.ok (some [255, 255]) ∧
    ([255, 255].length = [7, 7, 7, 7].length → False) := by
  decide

/-- C4 amended: for every audio chunk passed to `send_audio` while muted, a
silence item is enqueued in the chunk's place (the frame position is
preserved, never suppressed); its byte length equals the incoming chunk's for
LINEAR16, while for MULAW it is the mu-law companding of that many zero bytes
and therefore has half the byte length (the incoming even-sized chunk is
treated as 16-bit frames), and for any other encoding value `None` is
enqueued. -/
theorem muted_silence_frame_per_encoding (t : TranscriberState) (chunk : List Nat)
    (hm : t.is_muted = true) (heven : chunk.length % 2 = 0) :
    (BaseAsyncTranscriber.send_audio t chunk).enqueued =
      Except.ok (expected_silence t.transcriber_config.audio_encoding chunk.length) := by
  unfold BaseAsyncTranscriber.send_audio expected_silence
  rw [hm]
  simp only [Bool.true_eq_false, if_false]
  unfold AbstractTranscriber.create_silent_chunk
  by_cases h1 : t.transcriber_config.audio_encoding = AudioEncoding.LINEAR16
  · simp [h1]
  · by_cases h2 : t.transcriber_config.audio_encoding = AudioEncoding.MULAW
    · have hsplit : 2 * (chunk.length / 2) = chunk.length := by omega
      have hconv := lin2ulaw_pairs_replicate_zero (chunk.length / 2)
      rw [hsplit] at hconv
      simp [h1, h2, audioop.lin2ulaw, hconv, AudioEncoding.LINEAR16, AudioEncoding.MULAW]
    · simp [h1, h2]

/-- C4 witness: a muted LINEAR16 transcriber enqueues the two-byte zero
silence frame for a two-byte chunk, matching `expected_silence`. -/
theorem muted_silence_frame_per_encoding_witness :
    (BaseAsyncTranscriber.send_audio
      { transcriber_config := { audio_encoding := "linear16", publish_audio := true },
        is_muted := true } [9, 9]).enqueued =
      Except.ok (expected_silence "linear16" 2) :=
  muted_silence_frame_per_encoding
    { transcriber_config := { audio_encoding := "linear16", publish_audio := true },
      is_muted := true } [9, 9] rfl (by decide)

/-- C5 counterexample: with a rolling summary present, `get_chat_parameters`
keeps the leading system entry but rewrites its content from the preamble "P"
to "P" + newline + summary text — the first entry is retained yet not
preserved verbatim, refuting the claim's "content unchanged" part. -/
theorem summary_head_not_verbatim_counterexample :
    (ChatGPTAgent.get_chat_parameters
      { agent_config :=
          { prompt_preamble := some "P", model_name := "gpt-3.5-turbo",
            max_tokens := 100, temperature := 0, azure_params := none,
            cut_off_response := none, vector_db_config := none,
            expected_first_prompt := none, end_conversation_on_goodbye := false },
        transcript := some
          { turn_messages := [{ role := "user", content := "hi" }],
            last_summary := some { text := "S" } },
        last_messages_cnt := 4, goodbye_phrase := none, is_first_response := true,
        first_response := none, functions := none }
      none).map ChatGPTAgent.ChatParameters.messages =
      Except.ok
        [{ role := "system", content := "P\nS" }, { role := "user", content := "hi" }] ∧
    (({ role := "system", content := "P\nS" } : OpenAIMessage) =
      { role := "system", content := "P" } → False) := by
  decide

/-- C5 amended: when the transcript holds a rolling summary and a prompt
preamble is configured, the leading system entry is always retained as the
first message — never evicted by summarization — but its content is rewritten
to the preamble followed by a newline and the summary text (not kept
verbatim); and (for a positive recency window) the remaining messages are a
suffix of the transcript's turn messages, so only older non-system turns are
elided. -/
theorem summary_retains_head_with_summary_content
    (agent : ChatGPTAgentState) (transcript : Transcript) (p : String) (s : SummaryInfo)
    (ht : agent.transcript = some transcript)
    (hp : agent.agent_config.prompt_preamble = some p)
    (hs : transcript.last_summary = some s)
    (hcnt : 1 ≤ agent.last_messages_cnt) :
    ∃ params, ChatGPTAgent.get_chat_parameters agent none = Except.ok params ∧
      params.messages.head? = some { role := "system", content := p ++ "\n" ++ s.text } ∧
      params.messages.tail.IsSuffix transcript.turn_messages := by
  unfold ChatGPTAgent.get_chat_parameters
  rw [ht]
  simp only [hp, hs, format_openai_chat_messages_from_transcript,
    List.singleton_append, List.isEmpty_cons, List.length_cons, Nat.add_sub_cancel]
  by_cases hlen : transcript.turn_messages.length > agent.last_messages_cnt
  · simp only [if_pos rfl, hlen, if_true, gt_iff_lt, ite_true]
    refine ⟨_, rfl, rfl, ?_⟩
    unfold ChatGPTAgent.python_slice_last
    have hne : agent.last_messages_cnt ≠ 0 := by omega
    simp only [hne, if_false, List.length_cons]
    have hdrop : transcript.turn_messages.length + 1 - agent.last_messages_cnt =
        (transcript.turn_messages.length - agent.last_messages_cnt) + 1 := by omega
    rw [hdrop, List.drop_succ_cons]
    exact List.drop_suffix _ _
  · simp only [if_pos rfl, hlen, if_false, gt_iff_lt, ite_false]
    exact ⟨_, rfl, rfl, List.suffix_refl _⟩

/-- C5 witness: a concrete agent with preamble "Base", summary "Sum", window 1
and three user turns keeps the rewritten system head and elides only the
older turns, leaving a suffix of the turn messages. -/
theorem summary_retains_head_with_summary_content_witness :
    ∃ params,
      ChatGPTAgent.get_chat_parameters
        { agent_config :=
            { prompt_preamble := some "Base", model_name := "gpt-4",
              max_tokens := 50, temperature := 0, azure_params := none,
              cut_off_response := none, vector_db_config := none,
              expected_first_prompt := none, end_conversation_on_goodbye := false },
          transcript := some
            { turn_messages :=
                [{ role := "user", content := "one" },
                 { role := "assistant", content := "two" },
                 { role := "user", content := "three" }],
              last_summary := some { text := "Sum" } },
          last_messages_cnt := 1, goodbye_phrase := none, is_first_response := true,
          first_response := none, functions := none }
        none = Except.ok params ∧
      params.messages.head? = some { role := "system", content := "Base" ++ "\n" ++ "Sum" } ∧
      params.messages.tail.IsSuffix
        [{ role := "user", content := "one" },
         { role := "assistant", content := "two" },
         { role := "user", content := "three" }] :=
  summary_retains_head_with_summary_content _
    { turn_messages :=
        [{ role := "user", content := "one" },
         { role := "assistant", content := "two" },
         { role := "user", content := "three" }],
      last_summary := some { text := "Sum" } }
    "Base" { text := "Sum" } rfl rfl rfl (by decide)
